import Mathlib

/-!
Verification of the mpqemu remote-device control channel.

This file gives a shallow embedding of the two source files of the
repository:

* `src/unnamed/part_000` — the mpqemu link layer (`mpqemu_msg_send`,
  `mpqemu_msg_recv`, `mpqemu_msg_valid`, `wait_for_remote`,
  `notify_proxy`);
* `src/remote/remote-main.c` — the remote-side dispatcher
  (`process_msg`) and its handlers (`process_config_write`,
  `process_config_read`, `process_bar_read`, `setup_device`, ...).

External collaborators (the socket, the PCI core, JSON parsing,
`qdev_device_add`, the address spaces) are modelled as oracles passed
in as parameters; everything the source itself computes is translated
directly from the C control flow.
-/

set_option autoImplicit false

namespace MPQemu

/-! ## Constants

`REMOTE_MAX_FDS` and `MAX_REMOTE_DEVICES` are taken from the source
(`#define MAX_REMOTE_DEVICES 256` in remote-main.c; `REMOTE_MAX_FDS`
is used throughout part_000).  The command ordinals are modelled from
the spec, which gives the exact stable enumeration order (the header
declaring the enum is not under src/):
INIT, GET_PCI_INFO, RET_PCI_INFO, PCI_CONFIG_WRITE, PCI_CONFIG_READ,
BAR_WRITE, BAR_READ, MMIO_RETURN, SYNC_SYSMEM, SET_IRQFD, DEV_OPTS,
DEVICE_ADD, DEVICE_DEL, DEVICE_RESET, REMOTE_PING, START_MIG_OUT,
START_MIG_IN, RUNSTATE_SET, MAX (sentinel). -/

def REMOTE_MAX_FDS : Nat := 8

def MAX_REMOTE_DEVICES : Nat := 256

def INIT : Nat := 0

def GET_PCI_INFO : Nat := 1

def RET_PCI_INFO : Nat := 2

def PCI_CONFIG_WRITE : Nat := 3

def PCI_CONFIG_READ : Nat := 4

def BAR_WRITE : Nat := 5

def BAR_READ : Nat := 6

def MMIO_RETURN : Nat := 7

def SYNC_SYSMEM : Nat := 8

def SET_IRQFD : Nat := 9

def DEV_OPTS : Nat := 10

def DEVICE_ADD : Nat := 11

def DEVICE_DEL : Nat := 12

def DEVICE_RESET : Nat := 13

def REMOTE_PING : Nat := 14

def START_MIG_OUT : Nat := 15

def START_MIG_IN : Nat := 16

def RUNSTATE_SET : Nat := 17

/-- The sentinel `MAX` of the command enumeration. -/
def MAX_CMD : Nat := 18

/-- Modelled from the spec: `REMOTE_OK` of the `REMOTE_OK / REMOTE_FAIL`
status pair sent on the wait-fd (the enum itself is in a header that is
not under src/).  Only the distinctness of the two values matters. -/
def REMOTE_OK : Nat := 0

/-- Modelled from the spec: `REMOTE_FAIL`, see `REMOTE_OK`. -/
def REMOTE_FAIL : Nat := 1

/-- `UINT64_MAX` as a natural number. -/
def U64_MAX : Nat := 2 ^ 64 - 1

/-! ## Wait primitive (part_000, `notify_proxy` / `wait_for_remote`)

`notify_proxy(efd, val)` performs
`val = (val == UINT64_MAX) ? val : (val + 1); write(efd, &val, 8)`.
We model the 64-bit value actually written to the eventfd counter.
`wait_for_remote(efd)` polls for 1000 ms, returns `UINT64_MAX` on
timeout, poll error or read error, and otherwise reads the counter
`val` and returns `(val == UINT64_MAX) ? val : (val - 1)`. -/

/-- The 64-bit value `notify_proxy` writes to the eventfd for an intended
value `val` (the addition is 64-bit machine arithmetic). -/
def notify_proxy (val : Nat) : Nat :=
  if val = U64_MAX then val else (val + 1) % 2 ^ 64

/-- The poll timeout passed to `poll` by `wait_for_remote`, in
milliseconds. -/
def wait_poll_timeout_ms : Nat := 1000

/-- Outcome of the poll/read at the start of `wait_for_remote`:
timeout (`poll` returned 0), poll error (`poll` returned -1), read
error (`read` returned -1), or a successfully read counter value. -/
inductive WaitEvent where
  | timeout
  | pollFail
  | readFail
  | got (val : Nat)
  deriving DecidableEq, Repr

/-- Return value of `wait_for_remote` as a function of the poll/read
outcome. -/
def wait_for_remote : WaitEvent → Nat
  | .timeout => U64_MAX
  | .pollFail => U64_MAX
  | .readFail => U64_MAX
  | .got val => if val = U64_MAX then val else val - 1

/-! ## Frames and the wire (part_000, `mpqemu_msg_send` / `mpqemu_msg_recv`)

A frame (`MPQemuMsg`) has the packed header fields, the fd array, the
inline union `data1` (modelled as its byte contents) and the
out-of-line buffer `data2` (`none` models a NULL pointer).  The union
size `sizeof(msg->data1)` is an ABI constant not visible in src/, so
the definitions that need it take it as a parameter `d1sz`. -/

structure MPQemuMsg where
  cmd : Nat
  bytestream : Bool
  size : Nat
  id : Nat
  size_id : Nat
  num_fds : Nat
  fds : List Nat
  data1 : List Nat
  data2 : Option (List Nat)
  deriving DecidableEq, Repr

/-- One framed unit on the socket as produced by `mpqemu_msg_send`: the
header fields sent by the `sendmsg` of `MPQEMU_MSG_HDR_SIZE` bytes, the
fds carried as the SCM_RIGHTS ancillary data of that `sendmsg`, and the
`msg->size` payload bytes written immediately afterwards. -/
structure Wire where
  cmd : Nat
  bytestream : Bool
  size : Nat
  id : Nat
  size_id : Nat
  fds : List Nat
  body : List Nat
  deriving DecidableEq, Repr

/-- `mpqemu_msg_send`: refuses frames with `num_fds > REMOTE_MAX_FDS`
(nothing is sent, modelled as `none`); otherwise emits the header with
the first `num_fds` fds as ancillary data, then writes `msg->size`
bytes taken from `data2` if `bytestream` and from the inline union
otherwise. -/
def mpqemu_msg_send (m : MPQemuMsg) : Option Wire :=
  if REMOTE_MAX_FDS < m.num_fds then
    none
  else
    some { cmd := m.cmd, bytestream := m.bytestream, size := m.size,
           id := m.id, size_id := m.size_id,
           fds := m.fds.take m.num_fds,
           body := (if m.bytestream then m.data2.getD [] else m.data1).take m.size }

/-- Result of `mpqemu_msg_recv`.  `err code allocated` records the
negative return value together with whether the out-of-line buffer had
been allocated when the error return was taken. -/
inductive RecvResult where
  | err (code : Int) (allocated : Bool)
  | ok (m : MPQemuMsg)
  deriving DecidableEq, Repr

/-- `mpqemu_msg_recv` on a successfully read wire unit: counts the
ancillary fds and fails with `-ERANGE` (= -34) past `REMOTE_MAX_FDS`;
for a bytestream header with `size == 0` fails with `-EINVAL` (= -22)
before any allocation; otherwise allocates `size` bytes for `data2`
(bytestream) or reads `size` bytes into the inline union of the
caller-provided zeroed message (non-bytestream). -/
def mpqemu_msg_recv (d1sz : Nat) (w : Wire) : RecvResult :=
  if REMOTE_MAX_FDS < w.fds.length then
    .err (-34) false
  else if w.bytestream ∧ w.size = 0 then
    .err (-22) false
  else
    .ok { cmd := w.cmd, bytestream := w.bytestream, size := w.size,
          id := w.id, size_id := w.size_id,
          num_fds := w.fds.length, fds := w.fds,
          data1 := if w.bytestream then List.replicate d1sz 0
                   else w.body.take w.size ++ List.replicate (d1sz - w.size) 0,
          data2 := if w.bytestream then some (w.body.take w.size) else none }

/-! ## Frame validation (part_000, `mpqemu_msg_valid`)

`openp fd` models `fcntl(fd, F_GETFL) != -1`, i.e. whether `fd` is an
open descriptor.  `confsz` models `sizeof(struct conf_data_msg)` and
`d1sz` models `sizeof(msg->data1)`; both are ABI constants from
headers not under src/. -/

/-- The per-command payload-shape switch at the end of
`mpqemu_msg_valid`. -/
def size_shape_ok (confsz d1sz : Nat) (m : MPQemuMsg) : Bool :=
  if m.cmd = SYNC_SYSMEM then
    if m.num_fds = 0 ∨ m.bytestream = true then false
    else if m.size ≠ d1sz then false
    else true
  else if m.cmd = PCI_CONFIG_WRITE ∨ m.cmd = PCI_CONFIG_READ then
    if m.size ≠ confsz then false
    else true
  else if m.cmd = BAR_WRITE ∨ m.cmd = BAR_READ ∨ m.cmd = SET_IRQFD then
    if m.size ≠ d1sz then false
    else true
  else true

/-- `mpqemu_msg_valid`, translated clause by clause from part_000. -/
def mpqemu_msg_valid (openp : Nat → Bool) (confsz d1sz : Nat)
    (m : MPQemuMsg) : Bool :=
  if MAX_CMD ≤ m.cmd then false
  else if m.bytestream = true ∧ m.data2 = none then false
  else if m.bytestream = false ∧ m.data2 ≠ none then false
  else if REMOTE_MAX_FDS ≤ m.num_fds then false
  else if ¬ ((m.fds.take m.num_fds).all openp) then false
  else size_shape_ok confsz d1sz m

/-! ## Device registry (remote-main.c, `remote_pci_devs` / `nr_devices`)

A registry slot is modelled by `Cell`: `pci d` is a stored
`PCIDevice *` (identified by an abstract token `d`), `null` is a NULL
pointer (an initialized empty slot), and `undef` is indeterminate
memory — the contents `g_realloc` gives to newly grown slots that no
store has touched.  The registry itself is the list of slots;
`nr_devices` is its length. -/

inductive Cell where
  | pci (d : Nat)
  | null
  | undef
  deriving DecidableEq, Repr

/-- The registry update in `setup_device`:
`if (nr_devices <= msg->id) { nr_devices = msg->id + 1; remote_pci_devs =
g_realloc(remote_pci_devs, nr_devices * sizeof(PCIDevice *)); }
remote_pci_devs[msg->id] = PCI_DEVICE(dev);`.
`g_realloc` preserves existing slots and leaves the newly added ones
indeterminate. -/
def reg_add (reg : List Cell) (id : Nat) (d : Nat) : List Cell :=
  let grown := if reg.length ≤ id
               then reg ++ List.replicate (id + 1 - reg.length) Cell.undef
               else reg
  grown.set id (Cell.pci d)

/-! ## Config-space handlers (remote-main.c)

`process_config_write` and `process_config_read` both begin with
`if (msg->id > nr_devices) return;` and then access
`remote_pci_devs[msg->id]`.  We model the index the handler accesses
(`none` when the handler returns early). -/

/-- The registry index accessed by `process_config_write` /
`process_config_read` for a frame with device id `id` when
`nr_devices = nr`, or `none` if the handler returns without any
access. -/
def config_access (nr id : Nat) : Option Nat :=
  if nr < id then none else some id

/-! ## BAR read handler (remote-main.c, `process_bar_read`) -/

/-- The two address spaces, selected by the `memory` flag. -/
inductive AddrSpace where
  | memSpace
  | ioSpace
  deriving DecidableEq, Repr

/-- The two channels of the link. -/
inductive Chan where
  | com
  | mmio
  deriving DecidableEq, Repr

/-- A reply frame emitted by a handler: its command tag, the channel it
is sent on, and the value it carries. -/
structure Reply where
  cmd : Nat
  chan : Chan
  val : Nat
  deriving DecidableEq, Repr

/-- `MemTxResult` of `address_space_rw`: `MEMTX_OK` or a failure. -/
inductive MemTx where
  | ok
  | fail
  deriving DecidableEq, Repr

/-- Outcome of `process_bar_read`: whether `errp` was set and the reply
frame sent with `mpqemu_msg_send(&ret, mpqemu_link->mmio)`, if any. -/
structure BarReadOut where
  errSet : Bool
  reply : Option Reply
  deriving DecidableEq, Repr

/-- The fields of `bar_access_msg_t` used by the BAR handlers. -/
structure BarAccess where
  memory : Bool
  addr : Nat
  size : Nat
  deriving DecidableEq, Repr

/-- `AddressSpace *as = bar_access->memory ? &address_space_memory :
&address_space_io;`. -/
def bar_addr_space (ba : BarAccess) : AddrSpace :=
  if ba.memory then .memSpace else .ioSpace

/-- `process_bar_read`, parameterized by the bus: `bus as addr size`
gives the `MemTxResult` of `address_space_rw` and the 64-bit word the
read deposits (the read fills `size` bytes of a zeroed `uint64_t`, so
the deposited word is reduced mod `2 ^ (8 * size)`).  On `MEMTX_OK`
the switch masks the value to the requested width for sizes 4, 2, 1
and rejects any other size; on failure the value is `(uint64_t)-1`.
In both replying cases the reply is an MMIO_RETURN frame sent on the
mmio channel. -/
def process_bar_read (bus : AddrSpace → Nat → Nat → MemTx × Nat)
    (ba : BarAccess) : BarReadOut :=
  let r := bus (bar_addr_space ba) ba.addr ba.size
  let val := r.2 % 2 ^ (8 * ba.size)
  match r.1 with
  | .fail => { errSet := true,
               reply := some { cmd := MMIO_RETURN, chan := .mmio, val := U64_MAX } }
  | .ok =>
    if ba.size = 4 then
      { errSet := false,
        reply := some { cmd := MMIO_RETURN, chan := .mmio, val := val % 2 ^ 32 } }
    else if ba.size = 2 then
      { errSet := false,
        reply := some { cmd := MMIO_RETURN, chan := .mmio, val := val % 2 ^ 16 } }
    else if ba.size = 1 then
      { errSet := false,
        reply := some { cmd := MMIO_RETURN, chan := .mmio, val := val % 2 ^ 8 } }
    else
      { errSet := true, reply := none }

/-! ## Device setup (remote-main.c, `setup_device`)

The external calls are modelled by an environment of oracle outcomes:
whether `qobject_from_json` returns an object, whether
`qobject_to(QDict, obj)` succeeds, whether `qdev_device_add` returns a
device, and whether the created device casts to `TYPE_PCI_DEVICE`. -/

structure Env where
  json_ok : Bool
  qdict_ok : Bool
  dev_ok : Bool
  is_pci : Bool
  sync_ok : Bool
  mig_in_ok : Bool
  deriving DecidableEq, Repr

/-- Outcome of `setup_device`: the return code, the value written to
the wait-fd by `notify_proxy` (if any), whether `errp` was set, and
the registry afterwards. -/
structure SetupOut where
  rc : Int
  notified : Option Nat
  errSet : Bool
  reg : List Cell
  deriving DecidableEq, Repr

/-- `setup_device`, translated clause by clause: the three early
checks (`num_fds == 1`, non-NULL `data2`, `id <= MAX_REMOTE_DEVICES`)
return `-EINVAL` without notifying; a JSON / QDict / device-add
failure notifies `REMOTE_FAIL` and returns `-EINVAL`; success stores a
PCI device in the registry (growing it via `reg_add`) and notifies
`REMOTE_OK`. -/
def setup_device (env : Env) (reg : List Cell) (m : MPQemuMsg) : SetupOut :=
  if m.num_fds ≠ 1 then
    { rc := -22, notified := none, errSet := true, reg := reg }
  else if m.data2 = none then
    { rc := -22, notified := none, errSet := true, reg := reg }
  else if MAX_REMOTE_DEVICES < m.id then
    { rc := -22, notified := none, errSet := true, reg := reg }
  else if env.json_ok = false then
    { rc := -22, notified := some REMOTE_FAIL, errSet := true, reg := reg }
  else if env.qdict_ok = false then
    { rc := -22, notified := some REMOTE_FAIL, errSet := true, reg := reg }
  else if env.dev_ok = false then
    { rc := -22, notified := some REMOTE_FAIL, errSet := true, reg := reg }
  else
    { rc := 0, notified := some REMOTE_OK, errSet := false,
      reg := if env.is_pci then reg_add reg m.id m.id else reg }

/-! ## Dispatcher (remote-main.c, `process_msg`)

The dispatcher state is the pair of globals the switch reads and
writes: the `create_done` latch and the registry.  The observable of
one dispatch is an `Act`:

* `noop` — nothing ran (INIT, or a config/BAR command gated off by
  `create_done`);
* `invoked c i` — the handler body for command `c` ran for device id
  `i`;
* `preReject` — `goto finalize_loop` was taken before any handler ran
  (oversized id, a command the switch does not handle, or the
  SET_IRQFD id check);
* `postFinalize c` — the handler for `c` ran or failed and the
  dispatcher then took `goto finalize_loop`. -/

inductive Act where
  | noop
  | invoked (c : Nat) (i : Nat)
  | preReject
  | postFinalize (c : Nat)
  deriving DecidableEq, Repr

structure DispState where
  create_done : Bool
  reg : List Cell
  deriving DecidableEq, Repr

/-- `process_msg` on one successfully received frame, translated case
by case from the switch in remote-main.c.  `nr_devices` is
`s.reg.length`.  Note that the switch has no cases for RET_PCI_INFO
and MMIO_RETURN, so those two in-enumeration commands fall to
`default` and are rejected, and that `msg->size` is never inspected. -/
def process_msg (env : Env) (s : DispState) (m : MPQemuMsg) : DispState × Act :=
  if MAX_REMOTE_DEVICES < m.id then
    (s, .preReject)
  else if m.cmd = INIT then
    (s, .noop)
  else if m.cmd = GET_PCI_INFO then
    (s, .invoked GET_PCI_INFO m.id)
  else if m.cmd = PCI_CONFIG_WRITE then
    if s.create_done then (s, .invoked PCI_CONFIG_WRITE m.id) else (s, .noop)
  else if m.cmd = PCI_CONFIG_READ then
    if s.create_done then (s, .invoked PCI_CONFIG_READ m.id) else (s, .noop)
  else if m.cmd = BAR_WRITE then
    if s.create_done then (s, .invoked BAR_WRITE m.id) else (s, .noop)
  else if m.cmd = BAR_READ then
    if s.create_done then (s, .invoked BAR_READ m.id) else (s, .noop)
  else if m.cmd = SYNC_SYSMEM then
    if env.sync_ok then (s, .invoked SYNC_SYSMEM m.id)
    else (s, .postFinalize SYNC_SYSMEM)
  else if m.cmd = SET_IRQFD then
    if s.reg.length < m.id then (s, .preReject)
    else ({ s with create_done := true }, .invoked SET_IRQFD m.id)
  else if m.cmd = DEV_OPTS then
    let out := setup_device env s.reg m
    if out.rc ≠ 0 then ({ s with reg := out.reg }, .postFinalize DEV_OPTS)
    else ({ s with reg := out.reg }, .invoked DEV_OPTS m.id)
  else if m.cmd = DEVICE_ADD then
    (s, .invoked DEVICE_ADD m.id)
  else if m.cmd = DEVICE_DEL then
    (s, .invoked DEVICE_DEL m.id)
  else if m.cmd = REMOTE_PING then
    (s, .invoked REMOTE_PING m.id)
  else if m.cmd = DEVICE_RESET then
    (s, .invoked DEVICE_RESET m.id)
  else if m.cmd = START_MIG_OUT then
    (s, .invoked START_MIG_OUT m.id)
  else if m.cmd = START_MIG_IN then
    if env.mig_in_ok then (s, .invoked START_MIG_IN m.id)
    else (s, .postFinalize START_MIG_IN)
  else if m.cmd = RUNSTATE_SET then
    (s, .invoked RUNSTATE_SET m.id)
  else
    (s, .preReject)

/-- The commands for which the switch in `process_msg` has a case. -/
def dispatch_handled (c : Nat) : Prop :=
  c = INIT ∨ c = GET_PCI_INFO ∨ c = PCI_CONFIG_WRITE ∨ c = PCI_CONFIG_READ ∨
  c = BAR_WRITE ∨ c = BAR_READ ∨ c = SYNC_SYSMEM ∨ c = SET_IRQFD ∨
  c = DEV_OPTS ∨ c = DEVICE_ADD ∨ c = DEVICE_DEL ∨ c = REMOTE_PING ∨
  c = DEVICE_RESET ∨ c = START_MIG_OUT ∨ c = START_MIG_IN ∨ c = RUNSTATE_SET

/-! ## Concrete frames and oracles used by witnesses and counterexamples -/

/-- An environment in which every external call succeeds. -/
def env_all : Env :=
  { json_ok := true, qdict_ok := true, dev_ok := true, is_pci := true,
    sync_ok := true, mig_in_ok := true }

/-- An environment in which `qobject_from_json` fails and everything
else succeeds. -/
def env_bad_json : Env :=
  { json_ok := false, qdict_ok := true, dev_ok := true, is_pci := true,
    sync_ok := true, mig_in_ok := true }

/-- A PCI_CONFIG_WRITE frame for device id 1 with the correct 12-byte
`conf_data_msg` payload. -/
def cfg_write_id1 : MPQemuMsg :=
  { cmd := PCI_CONFIG_WRITE, bytestream := true, size := 12, id := 1,
    size_id := 0, num_fds := 0, fds := [], data1 := [],
    data2 := some (List.replicate 12 0) }

/-- A PCI_CONFIG_WRITE frame for device id 0 whose `size` (5) differs
from `sizeof(struct conf_data_msg)` (12). -/
def cfg_write_bad_size : MPQemuMsg :=
  { cmd := PCI_CONFIG_WRITE, bytestream := true, size := 5, id := 0,
    size_id := 0, num_fds := 0, fds := [], data1 := [],
    data2 := some [1, 2, 3, 4, 5] }

/-- A GET_PCI_INFO frame for device id 5. -/
def get_info_id5 : MPQemuMsg :=
  { cmd := GET_PCI_INFO, bytestream := false, size := 0, id := 5,
    size_id := 0, num_fds := 0, fds := [], data1 := [], data2 := none }

/-- A SET_IRQFD frame for device id 0 carrying the irqfd/resample-fd
pair, with the 48-byte inline union. -/
def irqfd_id0 : MPQemuMsg :=
  { cmd := SET_IRQFD, bytestream := false, size := 48, id := 0,
    size_id := 0, num_fds := 2, fds := [11, 12],
    data1 := List.replicate 48 0, data2 := none }

/-- A SET_IRQFD frame for device id 1, same shape as `irqfd_id0`. -/
def irqfd_id1 : MPQemuMsg :=
  { cmd := SET_IRQFD, bytestream := false, size := 48, id := 1,
    size_id := 0, num_fds := 2, fds := [11, 12],
    data1 := List.replicate 48 0, data2 := none }

/-- A DEV_OPTS frame for device id 0 with one wait-fd and a two-byte
JSON payload. -/
def dev_opts_id0 : MPQemuMsg :=
  { cmd := DEV_OPTS, bytestream := true, size := 2, id := 0,
    size_id := 0, num_fds := 1, fds := [7], data1 := [],
    data2 := some [123, 10] }

/-- A bytestream DEV_OPTS frame whose out-of-line payload is empty
(`size = 0`, `data2` a non-NULL empty buffer), with one wait-fd. -/
def bs_empty_frame : MPQemuMsg :=
  { cmd := DEV_OPTS, bytestream := true, size := 0, id := 0,
    size_id := 0, num_fds := 1, fds := [4], data1 := [],
    data2 := some [] }

/-- The wire unit `mpqemu_msg_send` produces for `bs_empty_frame`. -/
def bs_empty_wire : Wire :=
  { cmd := DEV_OPTS, bytestream := true, size := 0, id := 0,
    size_id := 0, fds := [4], body := [] }

/-- A frame carrying exactly `REMOTE_MAX_FDS = 8` file descriptors. -/
def fds8_frame : MPQemuMsg :=
  { cmd := INIT, bytestream := false, size := 0, id := 0, size_id := 0,
    num_fds := 8, fds := [3, 4, 5, 6, 7, 8, 9, 10], data1 := [],
    data2 := none }

/-- A frame carrying 7 file descriptors. -/
def fds7_frame : MPQemuMsg :=
  { cmd := INIT, bytestream := false, size := 0, id := 0, size_id := 0,
    num_fds := 7, fds := [3, 4, 5, 6, 7, 8, 9], data1 := [],
    data2 := none }

/-- A wire unit carrying exactly 8 ancillary file descriptors. -/
def fds8_wire : Wire :=
  { cmd := INIT, bytestream := false, size := 0, id := 0, size_id := 0,
    fds := [3, 4, 5, 6, 7, 8, 9, 10], body := [] }

/-- A bytestream DEV_OPTS frame with a two-byte payload, used to
exercise the send/recv round trip. -/
def rt_frame : MPQemuMsg :=
  { cmd := DEV_OPTS, bytestream := true, size := 2, id := 3,
    size_id := 0, num_fds := 1, fds := [5], data1 := [],
    data2 := some [9, 7] }

/-- An fd-openness oracle under which every descriptor is open. -/
def all_open : Nat → Bool := fun _ => true

/-- A bus on which every read succeeds and returns the word 0x1234. -/
def bus_const : AddrSpace → Nat → Nat → MemTx × Nat :=
  fun _ _ _ => (MemTx.ok, 4660)

/-! ## Theorems

We first record one evaluation lemma per branch of the dispatcher
switch; all dispatcher theorems below are proved from these. -/

theorem pm_bigid (env : Env) (s : DispState) (m : MPQemuMsg)
    (h : MAX_REMOTE_DEVICES < m.id) :
    process_msg env s m = (s, .preReject) := by
  unfold process_msg
  rw [if_pos h]

theorem pm_init (env : Env) (s : DispState) (m : MPQemuMsg)
    (hid : ¬ MAX_REMOTE_DEVICES < m.id) (h : m.cmd = INIT) :
    process_msg env s m = (s, .noop) := by
  unfold process_msg
  rw [if_neg hid, if_pos h]

theorem pm_get_pci_info (env : Env) (s : DispState) (m : MPQemuMsg)
    (hid : ¬ MAX_REMOTE_DEVICES < m.id) (h : m.cmd = GET_PCI_INFO) :
    process_msg env s m = (s, .invoked GET_PCI_INFO m.id) := by
  unfold process_msg
  rw [if_neg hid, if_neg (by rw [h]; decide), if_pos h]

theorem pm_cfg_write (env : Env) (s : DispState) (m : MPQemuMsg)
    (hid : ¬ MAX_REMOTE_DEVICES < m.id) (h : m.cmd = PCI_CONFIG_WRITE) :
    process_msg env s m =
      if s.create_done then (s, .invoked PCI_CONFIG_WRITE m.id) else (s, .noop) := by
  unfold process_msg
  rw [if_neg hid, if_neg (by rw [h]; decide), if_neg (by rw [h]; decide),
    if_pos h]

theorem pm_cfg_read (env : Env) (s : DispState) (m : MPQemuMsg)
    (hid : ¬ MAX_REMOTE_DEVICES < m.id) (h : m.cmd = PCI_CONFIG_READ) :
    process_msg env s m =
      if s.create_done then (s, .invoked PCI_CONFIG_READ m.id) else (s, .noop) := by
  unfold process_msg
  rw [if_neg hid, if_neg (by rw [h]; decide), if_neg (by rw [h]; decide),
    if_neg (by rw [h]; decide), if_pos h]

theorem pm_bar_write (env : Env) (s : DispState) (m : MPQemuMsg)
    (hid : ¬ MAX_REMOTE_DEVICES < m.id) (h : m.cmd = BAR_WRITE) :
    process_msg env s m =
      if s.create_done then (s, .invoked BAR_WRITE m.id) else (s, .noop) := by
  unfold process_msg
  rw [if_neg hid, if_neg (by rw [h]; decide), if_neg (by rw [h]; decide),
    if_neg (by rw [h]; decide), if_neg (by rw [h]; decide), if_pos h]

theorem pm_bar_read (env : Env) (s : DispState) (m : MPQemuMsg)
    (hid : ¬ MAX_REMOTE_DEVICES < m.id) (h : m.cmd = BAR_READ) :
    process_msg env s m =
      if s.create_done then (s, .invoked BAR_READ m.id) else (s, .noop) := by
  unfold process_msg
  rw [if_neg hid, if_neg (by rw [h]; decide), if_neg (by rw [h]; decide),
    if_neg (by rw [h]; decide), if_neg (by rw [h]; decide),
    if_neg (by rw [h]; decide), if_pos h]

theorem pm_sync (env : Env) (s : DispState) (m : MPQemuMsg)
    (hid : ¬ MAX_REMOTE_DEVICES < m.id) (h : m.cmd = SYNC_SYSMEM) :
    process_msg env s m =
      if env.sync_ok then (s, .invoked SYNC_SYSMEM m.id)
      else (s, .postFinalize SYNC_SYSMEM) := by
  unfold process_msg
  rw [if_neg hid, if_neg (by rw [h]; decide), if_neg (by rw [h]; decide),
    if_neg (by rw [h]; decide), if_neg (by rw [h]; decide),
    if_neg (by rw [h]; decide), if_neg (by rw [h]; decide), if_pos h]

theorem pm_set_irqfd (env : Env) (s : DispState) (m : MPQemuMsg)
    (hid : ¬ MAX_REMOTE_DEVICES < m.id) (h : m.cmd = SET_IRQFD) :
    process_msg env s m =
      if s.reg.length < m.id then (s, .preReject)
      else ({ s with create_done := true }, .invoked SET_IRQFD m.id) := by
  unfold process_msg
  rw [if_neg hid, if_neg (by rw [h]; decide), if_neg (by rw [h]; decide),
    if_neg (by rw [h]; decide), if_neg (by rw [h]; decide),
    if_neg (by rw [h]; decide), if_neg (by rw [h]; decide),
    if_neg (by rw [h]; decide), if_pos h]

theorem pm_dev_opts (env : Env) (s : DispState) (m : MPQemuMsg)
    (hid : ¬ MAX_REMOTE_DEVICES < m.id) (h : m.cmd = DEV_OPTS) :
    process_msg env s m =
      if (setup_device env s.reg m).rc ≠ 0
      then ({ s with reg := (setup_device env s.reg m).reg },
            .postFinalize DEV_OPTS)
      else ({ s with reg := (setup_device env s.reg m).reg },
            .invoked DEV_OPTS m.id) := by
  unfold process_msg
  rw [if_neg hid, if_neg (by rw [h]; decide), if_neg (by rw [h]; decide),
    if_neg (by rw [h]; decide), if_neg (by rw [h]; decide),
    if_neg (by rw [h]; decide), if_neg (by rw [h]; decide),
    if_neg (by rw [h]; decide), if_neg (by rw [h]; decide), if_pos h]

theorem pm_device_add (env : Env) (s : DispState) (m : MPQemuMsg)
    (hid : ¬ MAX_REMOTE_DEVICES < m.id) (h : m.cmd = DEVICE_ADD) :
    process_msg env s m = (s, .invoked DEVICE_ADD m.id) := by
  unfold process_msg
  rw [if_neg hid, if_neg (by rw [h]; decide), if_neg (by rw [h]; decide),
    if_neg (by rw [h]; decide), if_neg (by rw [h]; decide),
    if_neg (by rw [h]; decide), if_neg (by rw [h]; decide),
    if_neg (by rw [h]; decide), if_neg (by rw [h]; decide),
    if_neg (by rw [h]; decide), if_pos h]

theorem pm_device_del (env : Env) (s : DispState) (m : MPQemuMsg)
    (hid : ¬ MAX_REMOTE_DEVICES < m.id) (h : m.cmd = DEVICE_DEL) :
    process_msg env s m = (s, .invoked DEVICE_DEL m.id) := by
  unfold process_msg
  rw [if_neg hid, if_neg (by rw [h]; decide), if_neg (by rw [h]; decide),
    if_neg (by rw [h]; decide), if_neg (by rw [h]; decide),
    if_neg (by rw [h]; decide), if_neg (by rw [h]; decide),
    if_neg (by rw [h]; decide), if_neg (by rw [h]; decide),
    if_neg (by rw [h]; decide), if_neg (by rw [h]; decide), if_pos h]

theorem pm_remote_ping (env : Env) (s : DispState) (m : MPQemuMsg)
    (hid : ¬ MAX_REMOTE_DEVICES < m.id) (h : m.cmd = REMOTE_PING) :
    process_msg env s m = (s, .invoked REMOTE_PING m.id) := by
  unfold process_msg
  rw [if_neg hid, if_neg (by rw [h]; decide), if_neg (by rw [h]; decide),
    if_neg (by rw [h]; decide), if_neg (by rw [h]; decide),
    if_neg (by rw [h]; decide), if_neg (by rw [h]; decide),
    if_neg (by rw [h]; decide), if_neg (by rw [h]; decide),
    if_neg (by rw [h]; decide), if_neg (by rw [h]; decide),
    if_neg (by rw [h]; decide), if_pos h]

theorem pm_device_reset (env : Env) (s : DispState) (m : MPQemuMsg)
    (hid : ¬ MAX_REMOTE_DEVICES < m.id) (h : m.cmd = DEVICE_RESET) :
    process_msg env s m = (s, .invoked DEVICE_RESET m.id) := by
  unfold process_msg
  rw [if_neg hid, if_neg (by rw [h]; decide), if_neg (by rw [h]; decide),
    if_neg (by rw [h]; decide), if_neg (by rw [h]; decide),
    if_neg (by rw [h]; decide), if_neg (by rw [h]; decide),
    if_neg (by rw [h]; decide), if_neg (by rw [h]; decide),
    if_neg (by rw [h]; decide), if_neg (by rw [h]; decide),
    if_neg (by rw [h]; decide), if_neg (by rw [h]; decide), if_pos h]

theorem pm_mig_out (env : Env) (s : DispState) (m : MPQemuMsg)
    (hid : ¬ MAX_REMOTE_DEVICES < m.id) (h : m.cmd = START_MIG_OUT) :
    process_msg env s m = (s, .invoked START_MIG_OUT m.id) := by
  unfold process_msg
  rw [if_neg hid, if_neg (by rw [h]; decide), if_neg (by rw [h]; decide),
    if_neg (by rw [h]; decide), if_neg (by rw [h]; decide),
    if_neg (by rw [h]; decide), if_neg (by rw [h]; decide),
    if_neg (by rw [h]; decide), if_neg (by rw [h]; decide),
    if_neg (by rw [h]; decide), if_neg (by rw [h]; decide),
    if_neg (by rw [h]; decide), if_neg (by rw [h]; decide),
    if_neg (by rw [h]; decide), if_pos h]

theorem pm_mig_in (env : Env) (s : DispState) (m : MPQemuMsg)
    (hid : ¬ MAX_REMOTE_DEVICES < m.id) (h : m.cmd = START_MIG_IN) :
    process_msg env s m =
      if env.mig_in_ok then (s, .invoked START_MIG_IN m.id)
      else (s, .postFinalize START_MIG_IN) := by
  unfold process_msg
  rw [if_neg hid, if_neg (by rw [h]; decide), if_neg (by rw [h]; decide),
    if_neg (by rw [h]; decide), if_neg (by rw [h]; decide),
    if_neg (by rw [h]; decide), if_neg (by rw [h]; decide),
    if_neg (by rw [h]; decide), if_neg (by rw [h]; decide),
    if_neg (by rw [h]; decide), if_neg (by rw [h]; decide),
    if_neg (by rw [h]; decide), if_neg (by rw [h]; decide),
    if_neg (by rw [h]; decide), if_neg (by rw [h]; decide), if_pos h]

theorem pm_runstate (env : Env) (s : DispState) (m : MPQemuMsg)
    (hid : ¬ MAX_REMOTE_DEVICES < m.id) (h : m.cmd = RUNSTATE_SET) :
    process_msg env s m = (s, .invoked RUNSTATE_SET m.id) := by
  unfold process_msg
  rw [if_neg hid, if_neg (by rw [h]; decide), if_neg (by rw [h]; decide),
    if_neg (by rw [h]; decide), if_neg (by rw [h]; decide),
    if_neg (by rw [h]; decide), if_neg (by rw [h]; decide),
    if_neg (by rw [h]; decide), if_neg (by rw [h]; decide),
    if_neg (by rw [h]; decide), if_neg (by rw [h]; decide),
    if_neg (by rw [h]; decide), if_neg (by rw [h]; decide),
    if_neg (by rw [h]; decide), if_neg (by rw [h]; decide),
    if_neg (by rw [h]; decide), if_pos h]

theorem pm_unknown (env : Env) (s : DispState) (m : MPQemuMsg)
    (hid : ¬ MAX_REMOTE_DEVICES < m.id) (hun : ¬ dispatch_handled m.cmd) :
    process_msg env s m = (s, .preReject) := by
  unfold process_msg
  rw [if_neg hid,
    if_neg (fun hh => hun (Or.inl hh)),
    if_neg (fun hh => hun (Or.inr (Or.inl hh))),
    if_neg (fun hh => hun (Or.inr (Or.inr (Or.inl hh)))),
    if_neg (fun hh => hun (Or.inr (Or.inr (Or.inr (Or.inl hh))))),
    if_neg (fun hh => hun (Or.inr (Or.inr (Or.inr (Or.inr (Or.inl hh)))))),
    if_neg (fun hh => hun (Or.inr (Or.inr (Or.inr (Or.inr (Or.inr (Or.inl hh))))))),
    if_neg (fun hh => hun (Or.inr (Or.inr (Or.inr (Or.inr (Or.inr (Or.inr (Or.inl hh)))))))),
    if_neg (fun hh => hun (Or.inr (Or.inr (Or.inr (Or.inr (Or.inr (Or.inr (Or.inr (Or.inl hh))))))))),
    if_neg (fun hh => hun (Or.inr (Or.inr (Or.inr (Or.inr (Or.inr (Or.inr (Or.inr (Or.inr (Or.inl hh)))))))))),
    if_neg (fun hh => hun (Or.inr (Or.inr (Or.inr (Or.inr (Or.inr (Or.inr (Or.inr (Or.inr (Or.inr (Or.inl hh))))))))))),
    if_neg (fun hh => hun (Or.inr (Or.inr (Or.inr (Or.inr (Or.inr (Or.inr (Or.inr (Or.inr (Or.inr (Or.inr (Or.inl hh)))))))))))),
    if_neg (fun hh => hun (Or.inr (Or.inr (Or.inr (Or.inr (Or.inr (Or.inr (Or.inr (Or.inr (Or.inr (Or.inr (Or.inr (Or.inl hh))))))))))))),
    if_neg (fun hh => hun (Or.inr (Or.inr (Or.inr (Or.inr (Or.inr (Or.inr (Or.inr (Or.inr (Or.inr (Or.inr (Or.inr (Or.inr (Or.inl hh)))))))))))))),
    if_neg (fun hh => hun (Or.inr (Or.inr (Or.inr (Or.inr (Or.inr (Or.inr (Or.inr (Or.inr (Or.inr (Or.inr (Or.inr (Or.inr (Or.inr (Or.inl hh))))))))))))))),
    if_neg (fun hh => hun (Or.inr (Or.inr (Or.inr (Or.inr (Or.inr (Or.inr (Or.inr (Or.inr (Or.inr (Or.inr (Or.inr (Or.inr (Or.inr (Or.inr (Or.inl hh)))))))))))))))),
    if_neg (fun hh => hun (Or.inr (Or.inr (Or.inr (Or.inr (Or.inr (Or.inr (Or.inr (Or.inr (Or.inr (Or.inr (Or.inr (Or.inr (Or.inr (Or.inr (Or.inr hh))))))))))))))))]

/-- C3 counterexample: the claim says that for every `v` with
`0 ≤ v ≤ UINT64_MAX − 1` a notify of `v` followed by a wait yields `v`.
At the concrete input `v = UINT64_MAX − 1`, `notify_proxy` writes
`v + 1 = UINT64_MAX`, which `wait_for_remote` returns verbatim, so the
wait yields `UINT64_MAX ≠ v`. -/
theorem wait_notify_claim_cex :
    wait_for_remote (.got (notify_proxy (U64_MAX - 1))) = U64_MAX ∧
    U64_MAX ≠ U64_MAX - 1 := by
  constructor
  · have h : notify_proxy (U64_MAX - 1) = U64_MAX := by
      rw [notify_proxy, if_neg (by norm_num [U64_MAX])]
      norm_num [U64_MAX]
    rw [h, wait_for_remote, if_pos rfl]
  · norm_num [U64_MAX]

/-- C3 (amended): the round trip `wait (notify v) = v` holds for every
`v < UINT64_MAX − 1` (not for `v = UINT64_MAX − 1`, where the written
value collides with the `UINT64_MAX` sentinel and the wait returns
`UINT64_MAX`); `notify_proxy` passes `UINT64_MAX` through verbatim and
`wait_for_remote` returns a read `UINT64_MAX` verbatim; a wait that
times out, or whose poll or read fails, returns `UINT64_MAX`; the poll
timeout is 1000 ms. -/
theorem wait_notify_resolved :
    (∀ v : Nat, v < U64_MAX - 1 →
      wait_for_remote (.got (notify_proxy v)) = v) ∧
    wait_for_remote (.got (notify_proxy (U64_MAX - 1))) = U64_MAX ∧
    notify_proxy U64_MAX = U64_MAX ∧
    wait_for_remote (.got U64_MAX) = U64_MAX ∧
    wait_for_remote .timeout = U64_MAX ∧
    wait_for_remote .pollFail = U64_MAX ∧
    wait_for_remote .readFail = U64_MAX ∧
    wait_poll_timeout_ms = 1000 := by
  have h64 : (2 : Nat) ^ 64 = 18446744073709551616 := by norm_num
  have hU : U64_MAX = 18446744073709551615 := by norm_num [U64_MAX]
  refine ⟨?_, ?_, ?_, ?_, rfl, rfl, rfl, rfl⟩
  · intro v hv
    rw [hU] at hv
    rw [notify_proxy, if_neg (by omega), Nat.mod_eq_of_lt (by omega),
      wait_for_remote, if_neg (by omega)]
    omega
  · rw [notify_proxy, if_neg (by omega), wait_for_remote]
    rw [show (U64_MAX - 1 + 1) % 2 ^ 64 = U64_MAX by omega, if_pos rfl]
  · rw [notify_proxy, if_pos rfl]
  · rw [wait_for_remote, if_pos rfl]

/-- Witness for `wait_notify_resolved` at `v = 9`. -/
theorem wait_notify_resolved_witness :
    wait_for_remote (.got (notify_proxy 9)) = 9 :=
  wait_notify_resolved.1 9 (by norm_num [U64_MAX])

/-- C10: for every received frame whose header sets the bytestream
flag with `size = 0`, `mpqemu_msg_recv` returns a negative error code
without having allocated the out-of-line buffer, and returns exactly
`-EINVAL` whenever the ancillary fd count is within `REMOTE_MAX_FDS`
(past that bound the earlier `-ERANGE` return fires, likewise without
allocating). -/
theorem recv_empty_bytestream_rejected (d1sz : Nat) (w : Wire)
    (hb : w.bytestream = true) (hs : w.size = 0) :
    (∃ c : Int, mpqemu_msg_recv d1sz w = .err c false ∧ c < 0) ∧
    (w.fds.length ≤ REMOTE_MAX_FDS →
      mpqemu_msg_recv d1sz w = .err (-22) false) := by
  rw [mpqemu_msg_recv]
  by_cases h : REMOTE_MAX_FDS < w.fds.length
  · rw [if_pos h]
    exact ⟨⟨-34, rfl, by norm_num⟩, fun hle => absurd h (by omega)⟩
  · rw [if_neg h, if_pos ⟨hb, hs⟩]
    exact ⟨⟨-22, rfl, by norm_num⟩, fun _ => rfl⟩

/-- Witness for `recv_empty_bytestream_rejected` on the concrete wire
unit of an empty bytestream DEV_OPTS frame. -/
theorem recv_empty_bytestream_rejected_witness :
    (∃ c : Int, mpqemu_msg_recv 48 bs_empty_wire = .err c false ∧ c < 0) ∧
    (bs_empty_wire.fds.length ≤ REMOTE_MAX_FDS →
      mpqemu_msg_recv 48 bs_empty_wire = .err (-22) false) :=
  recv_empty_bytestream_rejected 48 bs_empty_wire rfl rfl

/-- C1 (code bug): the id checks do not confine the registry accesses
to the populated range.  With one populated slot (`nr_devices = 1`), a
PCI_CONFIG_WRITE frame for id 1 passes the dispatcher check and the
handler check `msg->id > nr_devices` and the handler accesses
`remote_pci_devs[1]`, yet `1 < nr_devices` fails; a GET_PCI_INFO frame
for id 5 with an empty registry reaches its handler (which receives
`remote_pci_devs[5]`), yet `5 < nr_devices` fails; a SET_IRQFD frame
for id 1 with `nr_devices = 1` passes the dispatcher check, yet
`1 < nr_devices` fails. -/
theorem id_checks_not_bounds :
    config_access 1 1 = some 1 ∧ ¬ (1 < 1) ∧
    (process_msg env_all { create_done := true, reg := [Cell.pci 0] }
        cfg_write_id1).2 = Act.invoked PCI_CONFIG_WRITE 1 ∧
    (process_msg env_all { create_done := false, reg := [] }
        get_info_id5).2 = Act.invoked GET_PCI_INFO 5 ∧
    ¬ (5 < ([] : List Cell).length) ∧
    (process_msg env_all { create_done := false, reg := [Cell.pci 0] }
        irqfd_id1).2 = Act.invoked SET_IRQFD 1 ∧
    ¬ (1 < ([Cell.pci 0] : List Cell).length) := by
  refine ⟨rfl, by omega, rfl, rfl, by simp, rfl, by simp⟩

/-- C5: `process_bar_read` selects the memory address space when the
`memory` flag is set and the I/O address space otherwise; for every
requested size in {1, 2, 4}, on MEMTX success it replies with the
64-bit word read from the bus masked down to the requested width, and
on MEMTX failure it replies with `(uint64_t)-1` and sets the error;
in either case the reply is an MMIO_RETURN frame on the mmio
channel. -/
theorem bar_read_correct (bus : AddrSpace → Nat → Nat → MemTx × Nat)
    (ba : BarAccess) (hsz : ba.size = 1 ∨ ba.size = 2 ∨ ba.size = 4) :
    (ba.memory = true → bar_addr_space ba = .memSpace) ∧
    (ba.memory = false → bar_addr_space ba = .ioSpace) ∧
    ((bus (bar_addr_space ba) ba.addr ba.size).1 = .ok →
      process_bar_read bus ba =
        ⟨false, some ⟨MMIO_RETURN, .mmio,
          (bus (bar_addr_space ba) ba.addr ba.size).2 % 2 ^ (8 * ba.size)⟩⟩) ∧
    ((bus (bar_addr_space ba) ba.addr ba.size).1 = .fail →
      process_bar_read bus ba =
        ⟨true, some ⟨MMIO_RETURN, .mmio, U64_MAX⟩⟩) := by
  refine ⟨fun hm => by simp [bar_addr_space, hm],
          fun hm => by simp [bar_addr_space, hm], ?_, ?_⟩
  · intro hok
    rcases hsz with h | h | h <;>
      simp_all [process_bar_read, Nat.mod_mod_of_dvd _ dvd_rfl]
  · intro hfail
    simp [process_bar_read, hfail]

/-- Witness for `bar_read_correct` on a constant bus with a 2-byte
memory-space read. -/
theorem bar_read_correct_witness :
    (({ memory := true, addr := 4096, size := 2 } : BarAccess).memory = true →
      bar_addr_space { memory := true, addr := 4096, size := 2 } = .memSpace) ∧
    (({ memory := true, addr := 4096, size := 2 } : BarAccess).memory = false →
      bar_addr_space { memory := true, addr := 4096, size := 2 } = .ioSpace) ∧
    ((bus_const (bar_addr_space { memory := true, addr := 4096, size := 2 })
        4096 2).1 = .ok →
      process_bar_read bus_const { memory := true, addr := 4096, size := 2 } =
        ⟨false, some ⟨MMIO_RETURN, .mmio,
          (bus_const (bar_addr_space { memory := true, addr := 4096, size := 2 })
            4096 2).2 % 2 ^ (8 * 2)⟩⟩) ∧
    ((bus_const (bar_addr_space { memory := true, addr := 4096, size := 2 })
        4096 2).1 = .fail →
      process_bar_read bus_const { memory := true, addr := 4096, size := 2 } =
        ⟨true, some ⟨MMIO_RETURN, .mmio, U64_MAX⟩⟩) :=
  bar_read_correct bus_const { memory := true, addr := 4096, size := 2 }
    (Or.inr (Or.inl rfl))

/-- C7 counterexample: with two devices in the registry and
`create_done` still false, processing SET_IRQFD for device 0 and then
PCI_CONFIG_WRITE for device 1 invokes the config-write handler for
device 1 even though device 1 never received a SET_IRQFD — the claim
says the handler must short-circuit for that device. -/
theorem created_flag_global_cex :
    (process_msg env_all
        { create_done := false, reg := [Cell.pci 0, Cell.pci 1] }
        irqfd_id0).1.create_done = true ∧
    (process_msg env_all
        (process_msg env_all
          { create_done := false, reg := [Cell.pci 0, Cell.pci 1] }
          irqfd_id0).1
        cfg_write_id1).2 = Act.invoked PCI_CONFIG_WRITE 1 ∧
    Act.invoked PCI_CONFIG_WRITE 1 ≠ Act.noop := by
  refine ⟨rfl, rfl, by decide⟩

/-- C7 (amended): `create_done` is a single global latch, not a
per-device flag.  For a frame whose id passes the dispatcher bound:
the PCI_CONFIG_WRITE / PCI_CONFIG_READ / BAR_WRITE / BAR_READ handler
is invoked exactly when the latch is set — regardless of which device
the frame addresses — and short-circuits to a no-op exactly when it is
not; processing any SET_IRQFD that passes the id check sets the latch;
no other command changes it. -/
theorem created_latch_resolved (env : Env) (s : DispState) (m : MPQemuMsg)
    (hid : m.id ≤ MAX_REMOTE_DEVICES) :
    ((m.cmd = PCI_CONFIG_WRITE ∨ m.cmd = PCI_CONFIG_READ ∨
      m.cmd = BAR_WRITE ∨ m.cmd = BAR_READ) →
      ((process_msg env s m).2 = Act.invoked m.cmd m.id ↔ s.create_done = true) ∧
      ((process_msg env s m).2 = Act.noop ↔ s.create_done = false)) ∧
    (m.cmd = SET_IRQFD → m.id ≤ s.reg.length →
      (process_msg env s m).1.create_done = true) ∧
    (m.cmd ≠ SET_IRQFD → (process_msg env s m).1.create_done = s.create_done) := by
  have hnot : ¬ MAX_REMOTE_DEVICES < m.id := Nat.not_lt.mpr hid
  refine ⟨?_, ?_, ?_⟩
  · intro hc
    rcases hc with h | h | h | h <;>
      simp only [process_msg, h, if_neg hnot] <;>
      simp [INIT, GET_PCI_INFO, PCI_CONFIG_WRITE, PCI_CONFIG_READ,
        BAR_WRITE, BAR_READ] <;>
      cases hcd : s.create_done <;> simp [hcd]
  · intro h hlen
    have hnl : ¬ s.reg.length < m.id := Nat.not_lt.mpr hlen
    simp only [process_msg, h, if_neg hnot]
    simp [INIT, GET_PCI_INFO, PCI_CONFIG_WRITE, PCI_CONFIG_READ,
      BAR_WRITE, BAR_READ, SYNC_SYSMEM, SET_IRQFD, hnl]
  · intro hne
    by_cases h : m.cmd = INIT
    · rw [pm_init env s m hnot h]
    by_cases h1 : m.cmd = GET_PCI_INFO
    · rw [pm_get_pci_info env s m hnot h1]
    by_cases h2 : m.cmd = PCI_CONFIG_WRITE
    · rw [pm_cfg_write env s m hnot h2]
      split <;> rfl
    by_cases h3 : m.cmd = PCI_CONFIG_READ
    · rw [pm_cfg_read env s m hnot h3]
      split <;> rfl
    by_cases h4 : m.cmd = BAR_WRITE
    · rw [pm_bar_write env s m hnot h4]
      split <;> rfl
    by_cases h5 : m.cmd = BAR_READ
    · rw [pm_bar_read env s m hnot h5]
      split <;> rfl
    by_cases h6 : m.cmd = SYNC_SYSMEM
    · rw [pm_sync env s m hnot h6]
      split <;> rfl
    by_cases h7 : m.cmd = DEV_OPTS
    · rw [pm_dev_opts env s m hnot h7]
      by_cases hrc : (setup_device env s.reg m).rc ≠ 0
      · rw [if_pos hrc]
      · rw [if_neg hrc]
    by_cases h8 : m.cmd = DEVICE_ADD
    · rw [pm_device_add env s m hnot h8]
    by_cases h9 : m.cmd = DEVICE_DEL
    · rw [pm_device_del env s m hnot h9]
    by_cases h10 : m.cmd = REMOTE_PING
    · rw [pm_remote_ping env s m hnot h10]
    by_cases h11 : m.cmd = DEVICE_RESET
    · rw [pm_device_reset env s m hnot h11]
    by_cases h12 : m.cmd = START_MIG_OUT
    · rw [pm_mig_out env s m hnot h12]
    by_cases h13 : m.cmd = START_MIG_IN
    · rw [pm_mig_in env s m hnot h13]
      split <;> rfl
    by_cases h14 : m.cmd = RUNSTATE_SET
    · rw [pm_runstate env s m hnot h14]
    have hun : ¬ dispatch_handled m.cmd := by
      intro hd
      rcases hd with hx | hx | hx | hx | hx | hx | hx | hx | hx | hx | hx |
        hx | hx | hx | hx | hx <;> contradiction
    rw [pm_unknown env s m hnot hun]

/-- Witness for `created_latch_resolved`: SET_IRQFD for device 0 with
one device in the registry. -/
theorem created_latch_resolved_witness :
    ((irqfd_id0.cmd = PCI_CONFIG_WRITE ∨ irqfd_id0.cmd = PCI_CONFIG_READ ∨
      irqfd_id0.cmd = BAR_WRITE ∨ irqfd_id0.cmd = BAR_READ) →
      ((process_msg env_all { create_done := false, reg := [Cell.pci 0] }
          irqfd_id0).2 = Act.invoked irqfd_id0.cmd irqfd_id0.id ↔
        ({ create_done := false, reg := [Cell.pci 0] } : DispState).create_done = true) ∧
      ((process_msg env_all { create_done := false, reg := [Cell.pci 0] }
          irqfd_id0).2 = Act.noop ↔
        ({ create_done := false, reg := [Cell.pci 0] } : DispState).create_done = false)) ∧
    (irqfd_id0.cmd = SET_IRQFD →
      irqfd_id0.id ≤ ({ create_done := false, reg := [Cell.pci 0] } : DispState).reg.length →
      (process_msg env_all { create_done := false, reg := [Cell.pci 0] }
        irqfd_id0).1.create_done = true) ∧
    (irqfd_id0.cmd ≠ SET_IRQFD →
      (process_msg env_all { create_done := false, reg := [Cell.pci 0] }
        irqfd_id0).1.create_done =
      ({ create_done := false, reg := [Cell.pci 0] } : DispState).create_done) :=
  created_latch_resolved env_all { create_done := false, reg := [Cell.pci 0] }
    irqfd_id0 (by decide)

/-- C2 counterexample: a received PCI_CONFIG_WRITE frame whose `size`
(5) violates the per-command payload shape (`sizeof(struct
conf_data_msg)` = 12) — `mpqemu_msg_valid` would reject it — is not
rejected by the dispatcher: with `create_done` set it is handed to the
config-write handler. -/
theorem dispatcher_no_size_check_cex :
    mpqemu_msg_valid all_open 12 48 cfg_write_bad_size = false ∧
    (process_msg env_all { create_done := true, reg := [Cell.pci 0] }
        cfg_write_bad_size).2 = Act.invoked PCI_CONFIG_WRITE 0 ∧
    Act.invoked PCI_CONFIG_WRITE 0 ≠ Act.preReject := by
  refine ⟨by decide, rfl, by decide⟩

/-- C2 (amended): the dispatcher finalizes the link before invoking
any handler exactly when the id exceeds MAX_DEVICES, or the command is
one the switch does not handle (everything outside the enumeration,
and also the remote-to-proxy tags RET_PCI_INFO and MMIO_RETURN), or a
SET_IRQFD id exceeds `nr_devices`; every command at or beyond the
enumeration sentinel is unhandled; and the verdict never depends on
the frame `size` — the per-command payload-shape check lives in
`mpqemu_msg_valid`, which the dispatcher does not call, so a
mismatched size is not a link error. -/
theorem dispatcher_reject_resolved (env : Env) (s : DispState) (m : MPQemuMsg) :
    ((process_msg env s m).2 = Act.preReject ↔
      (MAX_REMOTE_DEVICES < m.id ∨ ¬ dispatch_handled m.cmd ∨
       (m.cmd = SET_IRQFD ∧ m.id ≤ MAX_REMOTE_DEVICES ∧ s.reg.length < m.id))) ∧
    (∀ c, MAX_CMD ≤ c → ¬ dispatch_handled c) ∧
    (∀ sz, process_msg env s { m with size := sz } = process_msg env s m) := by
  refine ⟨?_, ?_, ?_⟩
  · by_cases hid : MAX_REMOTE_DEVICES < m.id
    · rw [pm_bigid env s m hid]
      simp [hid]
    have hle : m.id ≤ MAX_REMOTE_DEVICES := Nat.not_lt.mp hid
    by_cases h : m.cmd = INIT
    · rw [pm_init env s m hid h]
      simp [hid, h, dispatch_handled, INIT, SET_IRQFD]
    by_cases h1 : m.cmd = GET_PCI_INFO
    · rw [pm_get_pci_info env s m hid h1]
      simp [hid, h1, dispatch_handled, GET_PCI_INFO, SET_IRQFD]
    by_cases h2 : m.cmd = PCI_CONFIG_WRITE
    · rw [pm_cfg_write env s m hid h2]
      cases hcd : s.create_done <;>
        simp [hid, h2, dispatch_handled, PCI_CONFIG_WRITE, SET_IRQFD]
    by_cases h3 : m.cmd = PCI_CONFIG_READ
    · rw [pm_cfg_read env s m hid h3]
      cases hcd : s.create_done <;>
        simp [hid, h3, dispatch_handled, PCI_CONFIG_READ, SET_IRQFD]
    by_cases h4 : m.cmd = BAR_WRITE
    · rw [pm_bar_write env s m hid h4]
      cases hcd : s.create_done <;>
        simp [hid, h4, dispatch_handled, BAR_WRITE, SET_IRQFD]
    by_cases h5 : m.cmd = BAR_READ
    · rw [pm_bar_read env s m hid h5]
      cases hcd : s.create_done <;>
        simp [hid, h5, dispatch_handled, BAR_READ, SET_IRQFD]
    by_cases h6 : m.cmd = SYNC_SYSMEM
    · rw [pm_sync env s m hid h6]
      cases hs : env.sync_ok <;>
        simp [hid, h6, dispatch_handled, SYNC_SYSMEM, SET_IRQFD]
    by_cases h7 : m.cmd = SET_IRQFD
    · rw [pm_set_irqfd env s m hid h7]
      by_cases hl : s.reg.length < m.id
      · rw [if_pos hl]
        simp [h7, hl, hle]
      · rw [if_neg hl]
        simp [hid, h7, hl, dispatch_handled, SET_IRQFD]
    by_cases h8 : m.cmd = DEV_OPTS
    · rw [pm_dev_opts env s m hid h8]
      by_cases hrc : (setup_device env s.reg m).rc ≠ 0
      · rw [if_pos hrc]
        simp [hid, h8, dispatch_handled, DEV_OPTS, SET_IRQFD]
      · rw [if_neg hrc]
        simp [hid, h8, dispatch_handled, DEV_OPTS, SET_IRQFD]
    by_cases h9 : m.cmd = DEVICE_ADD
    · rw [pm_device_add env s m hid h9]
      simp [hid, h9, dispatch_handled, DEVICE_ADD, SET_IRQFD]
    by_cases h10 : m.cmd = DEVICE_DEL
    · rw [pm_device_del env s m hid h10]
      simp [hid, h10, dispatch_handled, DEVICE_DEL, SET_IRQFD]
    by_cases h11 : m.cmd = REMOTE_PING
    · rw [pm_remote_ping env s m hid h11]
      simp [hid, h11, dispatch_handled, REMOTE_PING, SET_IRQFD]
    by_cases h12 : m.cmd = DEVICE_RESET
    · rw [pm_device_reset env s m hid h12]
      simp [hid, h12, dispatch_handled, DEVICE_RESET, SET_IRQFD]
    by_cases h13 : m.cmd = START_MIG_OUT
    · rw [pm_mig_out env s m hid h13]
      simp [hid, h13, dispatch_handled, START_MIG_OUT, SET_IRQFD]
    by_cases h14 : m.cmd = START_MIG_IN
    · rw [pm_mig_in env s m hid h14]
      cases hmi : env.mig_in_ok <;>
        simp [hid, h14, dispatch_handled, START_MIG_IN, SET_IRQFD]
    by_cases h15 : m.cmd = RUNSTATE_SET
    · rw [pm_runstate env s m hid h15]
      simp [hid, h15, dispatch_handled, RUNSTATE_SET, SET_IRQFD]
    have hun : ¬ dispatch_handled m.cmd := by
      intro hd
      rcases hd with hx | hx | hx | hx | hx | hx | hx | hx | hx | hx | hx |
        hx | hx | hx | hx | hx <;> contradiction
    rw [pm_unknown env s m hid hun]
    simp [hun]
  · intro c hc hd
    rcases hd with hx | hx | hx | hx | hx | hx | hx | hx | hx | hx | hx |
      hx | hx | hx | hx | hx <;>
      rw [hx] at hc <;> revert hc <;> decide
  · intro sz
    cases m
    rfl

/-- Witness for `dispatcher_reject_resolved` at a concrete frame and
state. -/
theorem dispatcher_reject_resolved_witness :
    ((process_msg env_all { create_done := true, reg := [Cell.pci 0] }
        cfg_write_id1).2 = Act.preReject ↔
      (MAX_REMOTE_DEVICES < cfg_write_id1.id ∨
       ¬ dispatch_handled cfg_write_id1.cmd ∨
       (cfg_write_id1.cmd = SET_IRQFD ∧
        cfg_write_id1.id ≤ MAX_REMOTE_DEVICES ∧
        ({ create_done := true, reg := [Cell.pci 0] } : DispState).reg.length <
          cfg_write_id1.id))) ∧
    (∀ c, MAX_CMD ≤ c → ¬ dispatch_handled c) ∧
    (∀ sz, process_msg env_all { create_done := true, reg := [Cell.pci 0] }
        { cfg_write_id1 with size := sz } =
      process_msg env_all { create_done := true, reg := [Cell.pci 0] }
        cfg_write_id1) :=
  dispatcher_reject_resolved env_all
    { create_done := true, reg := [Cell.pci 0] } cfg_write_id1

/-- C6 counterexample: a DEV_OPTS frame whose JSON fails to parse is
notified REMOTE_FAIL, but `setup_device` returns nonzero and the
dispatcher takes the `finalize_loop` path, tearing the link down — the
claim says the link continues running after a device-creation
failure. -/
theorem dev_opts_failure_finalizes_cex :
    (setup_device env_bad_json [] dev_opts_id0).notified = some REMOTE_FAIL ∧
    (setup_device env_bad_json [] dev_opts_id0).rc ≠ 0 ∧
    (process_msg env_bad_json { create_done := false, reg := [] }
        dev_opts_id0).2 = Act.postFinalize DEV_OPTS ∧
    Act.postFinalize DEV_OPTS ≠ Act.invoked DEV_OPTS 0 := by
  refine ⟨rfl, by decide, rfl, by decide⟩

/-- C6 (amended): for a DEV_OPTS frame with exactly one attached fd, a
non-NULL payload and an id within bounds, `setup_device` notifies the
wait-fd with REMOTE_OK when device creation succeeds and with
REMOTE_FAIL when JSON parsing, QDict conversion or device-add fails,
setting the error that the dispatcher logs; but on every
`setup_device` failure the dispatcher finalizes the link instead of
continuing. -/
theorem dev_opts_notify_resolved (env : Env) (s : DispState) (m : MPQemuMsg)
    (hcmd : m.cmd = DEV_OPTS) (hfds : m.num_fds = 1) (hd : m.data2 ≠ none)
    (hid : m.id ≤ MAX_REMOTE_DEVICES) :
    (env.json_ok = true → env.qdict_ok = true → env.dev_ok = true →
      (setup_device env s.reg m).notified = some REMOTE_OK ∧
      (setup_device env s.reg m).rc = 0 ∧
      (process_msg env s m).2 = Act.invoked DEV_OPTS m.id) ∧
    ((env.json_ok = false ∨ env.qdict_ok = false ∨ env.dev_ok = false) →
      (setup_device env s.reg m).notified = some REMOTE_FAIL ∧
      (setup_device env s.reg m).errSet = true ∧
      (setup_device env s.reg m).rc ≠ 0 ∧
      (process_msg env s m).2 = Act.postFinalize DEV_OPTS) := by
  have hnid : ¬ MAX_REMOTE_DEVICES < m.id := Nat.not_lt.mpr hid
  constructor
  · intro hj hq hdev
    have e : setup_device env s.reg m =
        ⟨0, some REMOTE_OK, false,
         if env.is_pci then reg_add s.reg m.id m.id else s.reg⟩ := by
      simp [setup_device, hfds, hd, hnid, hj, hq, hdev]
    have hrc : ¬ (setup_device env s.reg m).rc ≠ 0 := by rw [e]; simp
    refine ⟨by rw [e], by rw [e], ?_⟩
    rw [pm_dev_opts env s m hnid hcmd, if_neg hrc]
  · intro hfail
    have e : (setup_device env s.reg m).notified = some REMOTE_FAIL ∧
        (setup_device env s.reg m).errSet = true ∧
        (setup_device env s.reg m).rc = -22 := by
      obtain ⟨j, q, d, pci, sy, mi⟩ := env
      cases j <;> cases q <;> cases d <;>
        simp_all [setup_device, hfds, hd, Nat.not_lt.mpr hid]
    have hrc : (setup_device env s.reg m).rc ≠ 0 := by rw [e.2.2]; decide
    refine ⟨e.1, e.2.1, hrc, ?_⟩
    rw [pm_dev_opts env s m hnid hcmd, if_pos hrc]

/-- Witness for `dev_opts_notify_resolved` at a concrete DEV_OPTS
frame, empty registry and the all-successful environment. -/
theorem dev_opts_notify_resolved_witness :
    (env_all.json_ok = true → env_all.qdict_ok = true → env_all.dev_ok = true →
      (setup_device env_all
        ({ create_done := false, reg := [] } : DispState).reg
        dev_opts_id0).notified = some REMOTE_OK ∧
      (setup_device env_all
        ({ create_done := false, reg := [] } : DispState).reg
        dev_opts_id0).rc = 0 ∧
      (process_msg env_all { create_done := false, reg := [] }
        dev_opts_id0).2 = Act.invoked DEV_OPTS dev_opts_id0.id) ∧
    ((env_all.json_ok = false ∨ env_all.qdict_ok = false ∨
      env_all.dev_ok = false) →
      (setup_device env_all
        ({ create_done := false, reg := [] } : DispState).reg
        dev_opts_id0).notified = some REMOTE_FAIL ∧
      (setup_device env_all
        ({ create_done := false, reg := [] } : DispState).reg
        dev_opts_id0).errSet = true ∧
      (setup_device env_all
        ({ create_done := false, reg := [] } : DispState).reg
        dev_opts_id0).rc ≠ 0 ∧
      (process_msg env_all { create_done := false, reg := [] }
        dev_opts_id0).2 = Act.postFinalize DEV_OPTS) :=
  dev_opts_notify_resolved env_all { create_done := false, reg := [] }
    dev_opts_id0 rfl rfl (by decide) (by decide)

/-- C9 counterexample: a frame with exactly MAX_FDS = 8 attached file
descriptors, all open, is rejected by `mpqemu_msg_valid` (its check is
`num_fds >= REMOTE_MAX_FDS`), even though `mpqemu_msg_recv` accepts 8
ancillary fds — so the claim that validation accepts every frame with
`num_fds ≤ MAX_FDS` and open fds fails at num_fds = 8. -/
theorem fds8_rejected_by_valid_cex :
    fds8_frame.num_fds = REMOTE_MAX_FDS ∧
    (fds8_frame.fds.take fds8_frame.num_fds).all all_open = true ∧
    mpqemu_msg_valid all_open 12 48 fds8_frame = false ∧
    mpqemu_msg_recv 48 fds8_wire =
      .ok { cmd := INIT, bytestream := false, size := 0, id := 0,
            size_id := 0, num_fds := 8, fds := [3, 4, 5, 6, 7, 8, 9, 10],
            data1 := List.replicate 48 0, data2 := none } := by
  refine ⟨rfl, by decide, by decide, by decide⟩

/-- C9 (amended): `mpqemu_msg_recv` fails with `-ERANGE` exactly when
the ancillary fd count strictly exceeds `REMOTE_MAX_FDS` (so a frame
with exactly 8 fds is accepted at receive time); but
`mpqemu_msg_valid` rejects every frame with `num_fds ≥ REMOTE_MAX_FDS`
and accepts (given the other header checks pass) only frames with at
most 7 attached fds, all open. -/
theorem fd_bound_resolved :
    (∀ (d1sz : Nat) (w : Wire),
      mpqemu_msg_recv d1sz w = .err (-34) false ↔
        REMOTE_MAX_FDS < w.fds.length) ∧
    (∀ (openp : Nat → Bool) (confsz d1sz : Nat) (m : MPQemuMsg),
      REMOTE_MAX_FDS ≤ m.num_fds →
        mpqemu_msg_valid openp confsz d1sz m = false) ∧
    (∀ (openp : Nat → Bool) (confsz d1sz : Nat) (m : MPQemuMsg),
      m.cmd < MAX_CMD →
      (m.bytestream = true → m.data2 ≠ none) →
      (m.bytestream = false → m.data2 = none) →
      m.num_fds < REMOTE_MAX_FDS →
      (m.fds.take m.num_fds).all openp = true →
      size_shape_ok confsz d1sz m = true →
        mpqemu_msg_valid openp confsz d1sz m = true) := by
  refine ⟨?_, ?_, ?_⟩
  · intro d1sz w
    constructor
    · intro he
      by_contra hlen
      rw [mpqemu_msg_recv, if_neg hlen] at he
      by_cases hb : w.bytestream = true ∧ w.size = 0
      · rw [if_pos hb] at he
        exact absurd (RecvResult.err.inj he).1 (by decide)
      · rw [if_neg hb] at he
        exact RecvResult.noConfusion he
    · intro h
      rw [mpqemu_msg_recv, if_pos h]
  · intro openp confsz d1sz m hge
    unfold mpqemu_msg_valid
    split_ifs <;> rfl
  · intro openp confsz d1sz m hcmd h1 h2 h4 h5 h6
    rw [mpqemu_msg_valid, if_neg (Nat.not_le.mpr hcmd),
      if_neg (fun hh => (h1 hh.1) hh.2),
      if_neg (fun hh => hh.2 (h2 hh.1)),
      if_neg (Nat.not_le.mpr h4),
      if_neg (fun hh => hh h5)]
    exact h6

/-- Witness for `fd_bound_resolved`: the recv characterization at the
8-fd wire unit, the validator rejection at the 8-fd frame, and the
validator acceptance at a 7-fd frame with all fds open. -/
theorem fd_bound_resolved_witness :
    (mpqemu_msg_recv 48 fds8_wire = .err (-34) false ↔
      REMOTE_MAX_FDS < fds8_wire.fds.length) ∧
    mpqemu_msg_valid all_open 12 48 fds8_frame = false ∧
    mpqemu_msg_valid all_open 12 48 fds7_frame = true :=
  ⟨fd_bound_resolved.1 48 fds8_wire,
   fd_bound_resolved.2.1 all_open 12 48 fds8_frame (by decide),
   fd_bound_resolved.2.2 all_open 12 48 fds7_frame (by decide) (by decide)
     (fun _ => rfl) (by decide) (by decide) (by decide)⟩

/-- C4 counterexample: a DEV_OPTS frame in the command enumeration
with one attached fd and an out-of-line bytestream payload of `size`
(= 0) bytes serializes successfully, but receiving the produced bytes
fails with `-EINVAL` instead of reconstructing the frame. -/
theorem roundtrip_claim_cex :
    mpqemu_msg_send bs_empty_frame = some bs_empty_wire ∧
    mpqemu_msg_recv 48 bs_empty_wire = .err (-22) false := by
  refine ⟨by decide, by decide⟩

/-- C4 (amended): for every frame whose cmd is in the enumeration,
with `num_fds ≤ MAX_FDS` fds attached, carrying either a non-empty
out-of-line bytestream payload of `size` bytes or the full inline
union (`size` equal to the union size), receiving the bytes produced
by sending the frame reconstructs it: same cmd, id, size, bytestream
flag, fd count and fds, and the same payload contents.  The one
departure from the claim is that an empty (`size = 0`) bytestream
payload is rejected at receive time rather than round-tripped. -/
theorem send_recv_roundtrip (d1sz : Nat) (m : MPQemuMsg)
    (_hcmd : m.cmd < MAX_CMD)
    (hnf : m.num_fds ≤ REMOTE_MAX_FDS)
    (hlen : m.fds.length = m.num_fds)
    (hbs : m.bytestream = true →
      0 < m.size ∧ ∃ b, m.data2 = some b ∧ b.length = m.size)
    (hin : m.bytestream = false →
      m.size = d1sz ∧ m.data1.length = d1sz) :
    ∃ w m2, mpqemu_msg_send m = some w ∧
      mpqemu_msg_recv d1sz w = .ok m2 ∧
      m2.cmd = m.cmd ∧ m2.id = m.id ∧ m2.size = m.size ∧
      m2.bytestream = m.bytestream ∧ m2.num_fds = m.num_fds ∧
      m2.fds = m.fds ∧
      (m.bytestream = true → m2.data2 = m.data2) ∧
      (m.bytestream = false → m2.data1 = m.data1) := by
  have hsend : mpqemu_msg_send m =
      some ⟨m.cmd, m.bytestream, m.size, m.id, m.size_id,
            m.fds.take m.num_fds,
            (if m.bytestream then m.data2.getD [] else m.data1).take m.size⟩ := by
    rw [mpqemu_msg_send, if_neg (Nat.not_lt.mpr hnf)]
  have hfds : m.fds.take m.num_fds = m.fds := by
    rw [← hlen]
    exact List.take_length m.fds
  rw [hfds] at hsend
  cases hb : m.bytestream
  · obtain ⟨hsz, hlen1⟩ := hin hb
    have hbody : (if m.bytestream then m.data2.getD [] else m.data1).take m.size
        = m.data1 := by
      rw [hb]
      simp only [Bool.false_eq_true, if_false]
      exact List.take_of_length_le (by omega)
    rw [hbody, hb] at hsend
    refine ⟨_, ⟨m.cmd, false, m.size, m.id, m.size_id, m.fds.length, m.fds,
      m.data1.take m.size ++ List.replicate (d1sz - m.size) 0, none⟩,
      hsend, ?_, rfl, rfl, rfl, rfl, hlen, rfl, fun hc => Bool.noConfusion hc, ?_⟩
    · rw [mpqemu_msg_recv, if_neg (by rw [hlen]; omega),
        if_neg (by simp)]
      rfl
    · intro _
      show m.data1.take m.size ++ List.replicate (d1sz - m.size) 0 = m.data1
      rw [List.take_of_length_le (by omega),
        show d1sz - m.size = 0 by omega, List.replicate_zero, List.append_nil]
  · obtain ⟨hsz, b, hb2, hblen⟩ := hbs hb
    have hbody : (if m.bytestream then m.data2.getD [] else m.data1).take m.size
        = b := by
      rw [hb]
      simp only [if_true, hb2, Option.getD_some]
      exact List.take_of_length_le (by omega)
    rw [hbody, hb] at hsend
    refine ⟨_, ⟨m.cmd, true, m.size, m.id, m.size_id, m.fds.length, m.fds,
      List.replicate d1sz 0, some (b.take m.size)⟩,
      hsend, ?_, rfl, rfl, rfl, rfl, hlen, rfl, ?_,
      fun hc => Bool.noConfusion hc⟩
    · rw [mpqemu_msg_recv, if_neg (by rw [hlen]; omega),
        if_neg (by simp; omega)]
      rfl
    · intro _
      show some (b.take m.size) = m.data2
      rw [List.take_of_length_le (by omega), hb2]

/-- Witness for `send_recv_roundtrip`: a concrete two-byte bytestream
DEV_OPTS frame with one fd. -/
theorem send_recv_roundtrip_witness :
    ∃ w m2, mpqemu_msg_send rt_frame = some w ∧
      mpqemu_msg_recv 48 w = .ok m2 ∧
      m2.cmd = rt_frame.cmd ∧ m2.id = rt_frame.id ∧
      m2.size = rt_frame.size ∧ m2.bytestream = rt_frame.bytestream ∧
      m2.num_fds = rt_frame.num_fds ∧ m2.fds = rt_frame.fds ∧
      (rt_frame.bytestream = true → m2.data2 = rt_frame.data2) ∧
      (rt_frame.bytestream = false → m2.data1 = rt_frame.data1) :=
  send_recv_roundtrip 48 rt_frame (by decide) (by decide) rfl
    (fun _ => ⟨by decide, [9, 7], rfl, rfl⟩)
    (fun hc => absurd hc (by decide))

/-- C8 counterexample: adding a PCI device at slot 2 to an empty
registry grows it to `[undef, undef, pci 5]` — the gap slots are left
with the indeterminate contents `g_realloc` gave them, not initialized
to empty (NULL). -/
theorem reg_add_gap_uninitialized_cex :
    reg_add [] 2 5 = [Cell.undef, Cell.undef, Cell.pci 5] ∧
    (reg_add [] 2 5)[0]? = some Cell.undef ∧
    Cell.undef ≠ Cell.null := by
  refine ⟨by decide, by decide, by decide⟩

/-- C8 (amended): adding a PCI device at slot `id` with
`id ≥ nr_devices` grows the registry to length `id + 1`; previously
populated slots keep their contents and the device is stored at slot
`id`, but the newly added slots below `id` are left uninitialized
(indeterminate `g_realloc` contents), not initialized to empty. -/
theorem reg_add_resolved (reg : List Cell) (id d j : Nat)
    (h : reg.length ≤ id) :
    (reg_add reg id d).length = id + 1 ∧
    (j < reg.length → (reg_add reg id d)[j]? = reg[j]?) ∧
    (reg.length ≤ j → j < id → (reg_add reg id d)[j]? = some Cell.undef) ∧
    (reg_add reg id d)[id]? = some (Cell.pci d) := by
  have hgrow : reg_add reg id d =
      (reg ++ List.replicate (id + 1 - reg.length) Cell.undef).set id
        (Cell.pci d) := by
    rw [reg_add, if_pos h]
  have hlenL : (reg ++ List.replicate (id + 1 - reg.length) Cell.undef).length
      = id + 1 := by
    rw [List.length_append, List.length_replicate]
    omega
  refine ⟨?_, ?_, ?_, ?_⟩
  · rw [hgrow, List.length_set, hlenL]
  · intro hj
    rw [hgrow, List.getElem?_set_ne (by omega : id ≠ j),
      List.getElem?_append, if_pos (by omega)]
  · intro hj1 hj2
    rw [hgrow, List.getElem?_set_ne (by omega : id ≠ j),
      List.getElem?_append, if_neg (by omega),
      List.getElem?_replicate, if_pos (by omega)]
  · rw [hgrow, List.getElem?_set_eq_of_lt _ (by omega)]

/-- Witness for `reg_add_resolved`: adding at slot 3 over a one-slot
registry, inspecting slot 1. -/
theorem reg_add_resolved_witness :
    (reg_add [Cell.pci 0] 3 7).length = 3 + 1 ∧
    (1 < ([Cell.pci 0] : List Cell).length →
      (reg_add [Cell.pci 0] 3 7)[1]? = ([Cell.pci 0] : List Cell)[1]?) ∧
    (([Cell.pci 0] : List Cell).length ≤ 1 → 1 < 3 →
      (reg_add [Cell.pci 0] 3 7)[1]? = some Cell.undef) ∧
    (reg_add [Cell.pci 0] 3 7)[3]? = some (Cell.pci 7) :=
  reg_add_resolved [Cell.pci 0] 3 7 1 (by decide)

end MPQemu
